import Mathlib

/-!
Verification of the checkpoint snapshot-manifest request handler
(`core/src/sync/state/snapshot_manifest_request.rs`) of the Conflux node.

The handler's two read-only walks — blame-chain reconstruction
(`get_blame_states`) and bounded epoch-receipt collection
(`get_block_receipts`) — are embedded as total Lean functions over an
abstract read-only store (`Context`).  External collaborators (header
store, execution-record store, epoch-block resolver, manifest store) are
modelled as function fields of `Context`, following the collaborator
interfaces of the specification.
-/

/-- A 256-bit hash, modelled abstractly as a natural number. -/
abbrev H256 := Nat

/-- Modelled from the spec: an opaque cursor identifying where a
multi-part manifest transfer should resume (`ChunkKey` lives outside the
given source file). -/
abbrev ChunkKey := Nat

/-- Modelled from the spec: a block's execution result (receipts etc.),
opaque to this handler (`BlockExecutionResult` lives in the block data
manager, outside the given source file). -/
abbrev BlockExecutionResult := Nat

/-- Modelled from the spec: the header fields this handler reads —
`hash()`, `parent_hash()`, `height()` and the self-reported `blame()`
count (`header_by_hash(hash) -> optional {height, parent_hash,
blame_count}`). -/
structure BlockHeader where
  hash : H256
  parent_hash : H256
  height : Nat
  blame : Nat
deriving Repr, DecidableEq

/-- Modelled from the spec: the per-block ExecutionRecord triplet of
deferred commitments read by the blame walk. -/
structure ConsensusGraphExecutionInfo where
  original_deferred_state_root : H256
  original_deferred_receipt_root : H256
  original_deferred_logs_bloom_hash : H256
deriving Repr, DecidableEq

/-- Modelled from the spec: the (possibly partial) chunk-layout manifest;
its internals are opaque to the handler, which only ever loads one or
substitutes the empty default. -/
structure RangedManifest where
  chunks : List Nat
deriving Repr, DecidableEq

/-- The `Default::default()` manifest substituted on load failure. -/
def RangedManifest.default : RangedManifest := ⟨[]⟩

/-- Modelled from the spec: the read-only query interface the handler
uses (header store, execution-record store, epoch-block resolver,
per-epoch execution results, manifest store).  Each field is one of the
collaborator interfaces of §6 of the specification. -/
structure Context where
  block_header_by_hash : H256 → Option BlockHeader
  consensus_graph_execution_info_from_db :
    H256 → Option ConsensusGraphExecutionInfo
  block_hashes_by_epoch : Nat → Except Unit (List H256)
  block_execution_result_by_hash_with_epoch :
    H256 → H256 → Option BlockExecutionResult
  load_manifest : H256 → Option ChunkKey → Except Unit (Option RangedManifest)

/-- Modelled from the spec: `REWARD_EPOCH_COUNT` is a fixed protocol
constant from `parameters::consensus_internal` (outside the given source
file); the specification's scenarios fix it at 12. -/
def REWARD_EPOCH_COUNT : Nat := 12

/-- The request message: `{ request_id, checkpoint, start_chunk,
trusted_blame_block }`. -/
structure SnapshotManifestRequest where
  request_id : Nat
  checkpoint : H256
  start_chunk : Option ChunkKey
  trusted_blame_block : Option H256
deriving Repr, DecidableEq

/-- The response message assembled by the handler. -/
structure SnapshotManifestResponse where
  request_id : Nat
  checkpoint : H256
  manifest : RangedManifest
  state_blame_vec : List H256
  receipt_blame_vec : List H256
  bloom_blame_vec : List H256
  block_receipts : List BlockExecutionResult
deriving Repr, DecidableEq

/-- Constructor `SnapshotManifestRequest::new`. -/
def SnapshotManifestRequest.new (checkpoint trusted_blame_block : H256) :
    SnapshotManifestRequest :=
  { request_id := 0
    checkpoint := checkpoint
    start_chunk := none
    trusted_blame_block := some trusted_blame_block }

/-- Constructor `SnapshotManifestRequest::new_with_start_chunk`. -/
def SnapshotManifestRequest.new_with_start_chunk (checkpoint : H256)
    (start_chunk : ChunkKey) : SnapshotManifestRequest :=
  { request_id := 0
    checkpoint := checkpoint
    start_chunk := some start_chunk
    trusted_blame_block := none }

/-- The inner `for hash in &ordered_executable_epoch_blocks` loop of
`get_block_receipts`: fetch the execution result of every block of the
epoch in order, aborting with `None` on the first miss. -/
def collectEpochReceipts (ctx : Context) (epoch_hash : H256) :
    List H256 → Option (List BlockExecutionResult)
  | [] => some []
  | h :: rest =>
    match ctx.block_execution_result_by_hash_with_epoch h epoch_hash with
    | some block_execution_result =>
      match collectEpochReceipts ctx epoch_hash rest with
      | some rs => some (block_execution_result :: rs)
      | none => none
    | none => none

/-- The `for _ in 0..REWARD_EPOCH_COUNT` loop of `get_block_receipts`,
with the remaining iteration budget as `fuel` and the receipts
accumulated so far as `epoch_receipts`.  Resolve the current epoch's
header, its ordered executable block set, and every block's execution
result; stop after processing genesis (height 0); abort with `None` on
any missing lookup. -/
def getBlockReceiptsLoop (ctx : Context) :
    Nat → H256 → List BlockExecutionResult →
    Option (List BlockExecutionResult)
  | 0, _, epoch_receipts => some epoch_receipts
  | fuel + 1, epoch_hash, epoch_receipts =>
    match ctx.block_header_by_hash epoch_hash with
    | some block =>
      match ctx.block_hashes_by_epoch block.height with
      | Except.ok ordered_executable_epoch_blocks =>
        match collectEpochReceipts ctx epoch_hash
            ordered_executable_epoch_blocks with
        | some rs =>
          -- We have reached original genesis
          if block.height = 0 then some (epoch_receipts ++ rs)
          else getBlockReceiptsLoop ctx fuel block.parent_hash
            (epoch_receipts ++ rs)
        | none => none
      | Except.error _ => none
    | none => none

/-- Method `SnapshotManifestRequest::get_block_receipts`. -/
def SnapshotManifestRequest.get_block_receipts
    (self : SnapshotManifestRequest) (ctx : Context) :
    Option (List BlockExecutionResult) :=
  getBlockReceiptsLoop ctx REWARD_EPOCH_COUNT self.checkpoint []

/-- Instrumentation of `getBlockReceiptsLoop`: the number of loop
iterations whose body begins executing (same control structure, counting
instead of collecting). -/
def getBlockReceiptsIters (ctx : Context) : Nat → H256 → Nat
  | 0, _ => 0
  | fuel + 1, epoch_hash =>
    match ctx.block_header_by_hash epoch_hash with
    | some block =>
      match ctx.block_hashes_by_epoch block.height with
      | Except.ok ordered_executable_epoch_blocks =>
        match collectEpochReceipts ctx epoch_hash
            ordered_executable_epoch_blocks with
        | some _ =>
          if block.height = 0 then 1
          else 1 + getBlockReceiptsIters ctx fuel block.parent_hash
        | none => 1
      | Except.error _ => 1
    | none => 1

/-- The `loop_cnt` computation of `get_blame_states`: height difference
plus 1 (genesis checkpoint) or plus `REWARD_EPOCH_COUNT`, raised to at
least `blame + 1`. -/
def blame_target_len (trusted_block checkpoint_block : BlockHeader) : Nat :=
  let loop_cnt :=
    if checkpoint_block.height = 0 then
      trusted_block.height - checkpoint_block.height + 1
    else
      trusted_block.height - checkpoint_block.height + REWARD_EPOCH_COUNT
  if loop_cnt < trusted_block.blame + 1 then trusted_block.blame + 1
  else loop_cnt

/-- The `loop` of `get_blame_states`, with the number of entries still to
be pushed as `fuel` (initially `loop_cnt`; the Rust loop breaks when the
vector length reaches `loop_cnt`, i.e. when `fuel` would hit 0).  At each
block: fetch its ConsensusGraphExecutionInfo and push its three digests;
on the last entry break without a further header lookup; otherwise fetch
the header and continue at the parent.  Abort with `None` on any missing
lookup. -/
def blameWalk (ctx : Context) :
    Nat → H256 → Option (List H256 × List H256 × List H256)
  | 0, _ => some ([], [], [])
  | fuel + 1, block_hash =>
    match ctx.consensus_graph_execution_info_from_db block_hash with
    | some exec_info =>
      if fuel = 0 then
        some ([exec_info.original_deferred_state_root],
              [exec_info.original_deferred_receipt_root],
              [exec_info.original_deferred_logs_bloom_hash])
      else
        match ctx.block_header_by_hash block_hash with
        | some block =>
          match blameWalk ctx fuel block.parent_hash with
          | some (s, r, b) =>
            some (exec_info.original_deferred_state_root :: s,
                  exec_info.original_deferred_receipt_root :: r,
                  exec_info.original_deferred_logs_bloom_hash :: b)
          | none => none
        | none => none
    | none => none

/-- Method `SnapshotManifestRequest::get_blame_states`. -/
def SnapshotManifestRequest.get_blame_states
    (self : SnapshotManifestRequest) (ctx : Context) :
    Option (List H256 × List H256 × List H256) :=
  match self.trusted_blame_block with
  | none => none
  | some tbb =>
    match ctx.block_header_by_hash tbb with
    | none => none
    | some trusted_block =>
      match ctx.block_header_by_hash self.checkpoint with
      | none => none
      | some checkpoint_block =>
        if trusted_block.height < checkpoint_block.height then none
        else
          blameWalk ctx (blame_target_len trusted_block checkpoint_block)
            trusted_block.hash

/-- Method `Handleable::handle` for `SnapshotManifestRequest`: load the manifest
(empty default on failure or absence), compute the blame vectors and the
receipts (`unwrap_or_default` on failure), and assemble the response that
is sent back. -/
def SnapshotManifestRequest.handle (self : SnapshotManifestRequest)
    (ctx : Context) : SnapshotManifestResponse :=
  let manifest :=
    match ctx.load_manifest self.checkpoint self.start_chunk with
    | Except.ok (some m) => m
    | _ => RangedManifest.default
  let blame := (self.get_blame_states ctx).getD ([], [], [])
  let block_receipts := (self.get_block_receipts ctx).getD []
  { request_id := self.request_id
    checkpoint := self.checkpoint
    manifest := manifest
    state_blame_vec := blame.1
    receipt_blame_vec := blame.2.1
    bloom_blame_vec := blame.2.2
    block_receipts := block_receipts }

/-- Method `Request::resend` for `SnapshotManifestRequest`: a clone of the
request. -/
def SnapshotManifestRequest.resend (self : SnapshotManifestRequest) :
    Option SnapshotManifestRequest :=
  some self

/-- Method `Request::is_empty` for `SnapshotManifestRequest`. -/
def SnapshotManifestRequest.is_empty (_self : SnapshotManifestRequest) :
    Bool :=
  false

/-! ## Lemmas about the blame-chain walk -/

theorem blameWalk_length (ctx : Context) :
    ∀ fuel h s r b, blameWalk ctx fuel h = some (s, r, b) →
      s.length = fuel ∧ r.length = fuel ∧ b.length = fuel := by
  intro fuel
  induction fuel with
  | zero =>
    intro h s r b hw
    simp only [blameWalk, Option.some.injEq, Prod.mk.injEq] at hw
    obtain ⟨hs, hr, hb⟩ := hw
    simp [← hs, ← hr, ← hb]
  | succ g ih =>
    intro h s r b hw
    simp only [blameWalk] at hw
    split at hw
    · split at hw
      · rename_i hg
        simp only [Option.some.injEq, Prod.mk.injEq] at hw
        obtain ⟨hs, hr, hb⟩ := hw
        subst hg
        simp [← hs, ← hr, ← hb]
      · split at hw
        · split at hw
          · rename_i s0 r0 b0 hrec
            simp only [Option.some.injEq, Prod.mk.injEq] at hw
            obtain ⟨hs, hr, hb⟩ := hw
            obtain ⟨l1, l2, l3⟩ := ih _ s0 r0 b0 hrec
            simp [← hs, ← hr, ← hb, l1, l2, l3]
          · simp at hw
        · simp at hw
    · simp at hw

theorem blame_target_len_eq_max (tb cb : BlockHeader) :
    blame_target_len tb cb =
      if cb.height = 0 then max (tb.height - cb.height + 1) (tb.blame + 1)
      else max (tb.height - cb.height + REWARD_EPOCH_COUNT) (tb.blame + 1) := by
  by_cases h0 : cb.height = 0
  · simp only [blame_target_len, h0, if_true]
    split <;> omega
  · simp only [blame_target_len, h0, if_false]
    split <;> omega

theorem blame_target_len_pos (tb cb : BlockHeader) :
    0 < blame_target_len tb cb := by
  rw [blame_target_len_eq_max]
  split <;> omega

theorem get_blame_states_eq_walk (ctx : Context)
    (self : SnapshotManifestRequest) (tbb : H256) (tb cb : BlockHeader)
    (h1 : self.trusted_blame_block = some tbb)
    (h2 : ctx.block_header_by_hash tbb = some tb)
    (h3 : ctx.block_header_by_hash self.checkpoint = some cb)
    (h4 : cb.height ≤ tb.height) :
    self.get_blame_states ctx =
      blameWalk ctx (blame_target_len tb cb) tb.hash := by
  unfold SnapshotManifestRequest.get_blame_states
  rw [h1]
  simp only [h2, h3]
  rw [if_neg (by omega)]

theorem handle_state_blame_vec (self : SnapshotManifestRequest)
    (ctx : Context) :
    (self.handle ctx).state_blame_vec =
      ((self.get_blame_states ctx).getD ([], [], [])).1 := rfl

theorem handle_receipt_blame_vec (self : SnapshotManifestRequest)
    (ctx : Context) :
    (self.handle ctx).receipt_blame_vec =
      ((self.get_blame_states ctx).getD ([], [], [])).2.1 := rfl

theorem handle_bloom_blame_vec (self : SnapshotManifestRequest)
    (ctx : Context) :
    (self.handle ctx).bloom_blame_vec =
      ((self.get_blame_states ctx).getD ([], [], [])).2.2 := rfl

theorem handle_block_receipts (self : SnapshotManifestRequest)
    (ctx : Context) :
    (self.handle ctx).block_receipts =
      (self.get_block_receipts ctx).getD [] := rfl

theorem handle_blame_empty_of_none (self : SnapshotManifestRequest)
    (ctx : Context) (h : self.get_blame_states ctx = none) :
    (self.handle ctx).state_blame_vec = [] ∧
    (self.handle ctx).receipt_blame_vec = [] ∧
    (self.handle ctx).bloom_blame_vec = [] := by
  rw [handle_state_blame_vec, handle_receipt_blame_vec,
    handle_bloom_blame_vec, h]
  exact ⟨rfl, rfl, rfl⟩

/-! ## Lemmas about the epoch-receipt walk -/

theorem getBlockReceiptsLoop_prefix (ctx : Context) :
    ∀ fuel epoch_hash acc out,
      getBlockReceiptsLoop ctx fuel epoch_hash acc = some out →
      ∃ tail, out = acc ++ tail := by
  intro fuel
  induction fuel with
  | zero =>
    intro epoch_hash acc out hw
    simp only [getBlockReceiptsLoop, Option.some.injEq] at hw
    refine ⟨[], ?_⟩
    simp [← hw]
  | succ g ih =>
    intro epoch_hash acc out hw
    simp only [getBlockReceiptsLoop] at hw
    split at hw
    · split at hw
      · split at hw
        · rename_i rs hrs
          split at hw
          · simp only [Option.some.injEq] at hw
            refine ⟨rs, ?_⟩
            simp [← hw]
          · obtain ⟨tail, htail⟩ := ih _ _ _ hw
            refine ⟨rs ++ tail, ?_⟩
            simp [htail]
        · simp at hw
      · simp at hw
    · simp at hw

theorem getBlockReceiptsIters_le (ctx : Context) :
    ∀ fuel epoch_hash, getBlockReceiptsIters ctx fuel epoch_hash ≤ fuel := by
  intro fuel
  induction fuel with
  | zero => intro epoch_hash; simp [getBlockReceiptsIters]
  | succ g ih =>
    intro epoch_hash
    simp only [getBlockReceiptsIters]
    split
    · split
      · split
        · split
          · omega
          · refine le_trans (Nat.add_le_add_left (ih _) 1) ?_
            omega
        · omega
      · omega
    · omega

theorem collectEpochReceipts_missing (ctx : Context) (epoch_hash : H256) :
    ∀ hs : List H256,
      (∃ x ∈ hs,
        ctx.block_execution_result_by_hash_with_epoch x epoch_hash = none) →
      collectEpochReceipts ctx epoch_hash hs = none := by
  intro hs
  induction hs with
  | nil => rintro ⟨x, hx, _⟩; simp at hx
  | cons h rest ih =>
    rintro ⟨x, hx, hnone⟩
    rcases List.mem_cons.mp hx with heq | hmem
    · subst heq
      simp [collectEpochReceipts, hnone]
    · have hrest := ih ⟨x, hmem, hnone⟩
      simp only [collectEpochReceipts, hrest]
      cases ctx.block_execution_result_by_hash_with_epoch h epoch_hash <;> rfl

/-! ## Claim theorems: blame-chain reconstruction -/

/-- C1: for every request whose trusted anchor and checkpoint headers both
resolve, with anchor height at least the checkpoint height and height
difference `d`, when `get_blame_states` returns a blame vector its length
is exactly `max (d + REWARD_EPOCH_COUNT) (blame_count + 1)` if the
checkpoint height is positive, and exactly `max (d + 1) (blame_count + 1)`
if the checkpoint height is 0. -/
theorem C1_blame_vector_length (ctx : Context)
    (self : SnapshotManifestRequest) (tbb : H256) (tb cb : BlockHeader)
    (s r b : List H256)
    (h1 : self.trusted_blame_block = some tbb)
    (h2 : ctx.block_header_by_hash tbb = some tb)
    (h3 : ctx.block_header_by_hash self.checkpoint = some cb)
    (h4 : cb.height ≤ tb.height)
    (h5 : self.get_blame_states ctx = some (s, r, b)) :
    (0 < cb.height →
      s.length =
        max (tb.height - cb.height + REWARD_EPOCH_COUNT) (tb.blame + 1)) ∧
    (cb.height = 0 →
      s.length = max (tb.height - cb.height + 1) (tb.blame + 1)) := by
  rw [get_blame_states_eq_walk ctx self tbb tb cb h1 h2 h3 h4] at h5
  obtain ⟨l1, _, _⟩ := blameWalk_length ctx _ _ _ _ _ h5
  rw [l1, blame_target_len_eq_max]
  constructor
  · intro hpos
    rw [if_neg (by omega)]
  · intro h0
    rw [if_pos h0]

/-- C2: the blame walk is all-or-nothing — a missing ExecutionRecord or
header at any step yields `None` (and the handler then sends three empty
blame vectors), and a returned vector always has exactly the computed
target length, never fewer entries. -/
theorem C2_blame_walk_all_or_nothing (ctx : Context)
    (self : SnapshotManifestRequest) (tbb : H256) (tb cb : BlockHeader)
    (h1 : self.trusted_blame_block = some tbb)
    (h2 : ctx.block_header_by_hash tbb = some tb)
    (h3 : ctx.block_header_by_hash self.checkpoint = some cb) :
    (∀ fuel h, ctx.consensus_graph_execution_info_from_db h = none →
      blameWalk ctx (fuel + 1) h = none) ∧
    (∀ fuel h exec_info,
      ctx.consensus_graph_execution_info_from_db h = some exec_info →
      ctx.block_header_by_hash h = none →
      blameWalk ctx (fuel + 2) h = none) ∧
    (∀ fuel h exec_info block,
      ctx.consensus_graph_execution_info_from_db h = some exec_info →
      ctx.block_header_by_hash h = some block →
      blameWalk ctx (fuel + 1) block.parent_hash = none →
      blameWalk ctx (fuel + 2) h = none) ∧
    (∀ s r b, self.get_blame_states ctx = some (s, r, b) →
      s.length = blame_target_len tb cb ∧
      r.length = blame_target_len tb cb ∧
      b.length = blame_target_len tb cb) ∧
    (self.get_blame_states ctx = none →
      (self.handle ctx).state_blame_vec = [] ∧
      (self.handle ctx).receipt_blame_vec = [] ∧
      (self.handle ctx).bloom_blame_vec = []) := by
  refine ⟨?_, ?_, ?_, ?_, ?_⟩
  · intro fuel h hne
    simp [blameWalk, hne]
  · intro fuel h exec_info hsome hh
    simp [blameWalk, hsome, hh]
  · intro fuel h exec_info block hsome hh hrec
    rw [blameWalk, hsome]
    dsimp only
    rw [if_neg (Nat.succ_ne_zero fuel), hh]
    dsimp only
    rw [hrec]
  · intro s r b h5
    unfold SnapshotManifestRequest.get_blame_states at h5
    rw [h1] at h5
    simp only [h2, h3] at h5
    split at h5
    · simp at h5
    · exact blameWalk_length ctx _ _ _ _ _ h5
  · exact handle_blame_empty_of_none self ctx

/-- C3: a request whose resolvable trusted anchor sits strictly below the
resolvable checkpoint is aborted — `get_blame_states` returns `None`
before walking, and the handler still assembles a response with three
empty blame vectors echoing the request's id and checkpoint. -/
theorem C3_low_anchor_aborts (ctx : Context)
    (self : SnapshotManifestRequest) (tbb : H256) (tb cb : BlockHeader)
    (h1 : self.trusted_blame_block = some tbb)
    (h2 : ctx.block_header_by_hash tbb = some tb)
    (h3 : ctx.block_header_by_hash self.checkpoint = some cb)
    (h4 : tb.height < cb.height) :
    self.get_blame_states ctx = none ∧
    (self.handle ctx).state_blame_vec = [] ∧
    (self.handle ctx).receipt_blame_vec = [] ∧
    (self.handle ctx).bloom_blame_vec = [] ∧
    (self.handle ctx).request_id = self.request_id ∧
    (self.handle ctx).checkpoint = self.checkpoint := by
  have hn : self.get_blame_states ctx = none := by
    unfold SnapshotManifestRequest.get_blame_states
    rw [h1]
    simp only [h2, h3]
    rw [if_pos h4]
  obtain ⟨e1, e2, e3⟩ := handle_blame_empty_of_none self ctx hn
  exact ⟨hn, e1, e2, e3, rfl, rfl⟩

/-- C9: whenever `get_blame_states` returns `Some`, the three returned
sequences (state, receipt and bloom digests) have equal length — each
successful step pushes exactly one digest onto each. -/
theorem C9_blame_vectors_parallel (ctx : Context)
    (self : SnapshotManifestRequest) (s r b : List H256)
    (h : self.get_blame_states ctx = some (s, r, b)) :
    s.length = r.length ∧ r.length = b.length := by
  unfold SnapshotManifestRequest.get_blame_states at h
  split at h
  · simp at h
  · split at h
    · simp at h
    · split at h
      · simp at h
      · split at h
        · simp at h
        · obtain ⟨l1, l2, l3⟩ := blameWalk_length ctx _ _ _ _ _ h
          omega

/-- C10: a request without a trusted blame block (such as one built by
`new_with_start_chunk`) makes `get_blame_states` return `None` without
any walk, so the handler's response carries three empty blame vectors,
while the manifest and the block receipts are still computed as usual. -/
theorem C10_absent_anchor (ctx : Context) (self : SnapshotManifestRequest)
    (h : self.trusted_blame_block = none) :
    self.get_blame_states ctx = none ∧
    (self.handle ctx).state_blame_vec = [] ∧
    (self.handle ctx).receipt_blame_vec = [] ∧
    (self.handle ctx).bloom_blame_vec = [] ∧
    (self.handle ctx).block_receipts =
      (self.get_block_receipts ctx).getD [] ∧
    (self.handle ctx).manifest =
      (match ctx.load_manifest self.checkpoint self.start_chunk with
        | Except.ok (some m) => m
        | _ => RangedManifest.default) := by
  have hn : self.get_blame_states ctx = none := by
    unfold SnapshotManifestRequest.get_blame_states
    rw [h]
  obtain ⟨e1, e2, e3⟩ := handle_blame_empty_of_none self ctx hn
  exact ⟨hn, e1, e2, e3, rfl, rfl⟩

/-! ## Claim theorems: epoch-receipt collection, handler, resend -/

/-- C4: the epoch-receipt walk is all-or-nothing — a missing epoch
header, a failing epoch-block resolution, a missing execution result for
any block of a resolved epoch, or a failure at any later visited epoch
each yield `None`, and on `None` the handler's response carries an
entirely empty block_receipts sequence. -/
theorem C4_receipts_all_or_nothing (ctx : Context)
    (self : SnapshotManifestRequest) :
    (self.get_block_receipts ctx = none →
      (self.handle ctx).block_receipts = []) ∧
    (∀ fuel h acc, ctx.block_header_by_hash h = none →
      getBlockReceiptsLoop ctx (fuel + 1) h acc = none) ∧
    (∀ fuel h acc block e, ctx.block_header_by_hash h = some block →
      ctx.block_hashes_by_epoch block.height = Except.error e →
      getBlockReceiptsLoop ctx (fuel + 1) h acc = none) ∧
    (∀ fuel h acc block ord, ctx.block_header_by_hash h = some block →
      ctx.block_hashes_by_epoch block.height = Except.ok ord →
      collectEpochReceipts ctx h ord = none →
      getBlockReceiptsLoop ctx (fuel + 1) h acc = none) ∧
    (∀ epoch_hash hs,
      (∃ x ∈ hs,
        ctx.block_execution_result_by_hash_with_epoch x epoch_hash = none) →
      collectEpochReceipts ctx epoch_hash hs = none) ∧
    (∀ fuel h acc block ord rs, ctx.block_header_by_hash h = some block →
      ctx.block_hashes_by_epoch block.height = Except.ok ord →
      collectEpochReceipts ctx h ord = some rs →
      block.height ≠ 0 →
      getBlockReceiptsLoop ctx fuel block.parent_hash (acc ++ rs) = none →
      getBlockReceiptsLoop ctx (fuel + 1) h acc = none) := by
  refine ⟨?_, ?_, ?_, ?_, ?_, ?_⟩
  · intro hn
    rw [handle_block_receipts, hn]
    rfl
  · intro fuel h acc hh
    simp [getBlockReceiptsLoop, hh]
  · intro fuel h acc block e hh hr
    simp [getBlockReceiptsLoop, hh, hr]
  · intro fuel h acc block ord hh hr hc
    simp [getBlockReceiptsLoop, hh, hr, hc]
  · exact collectEpochReceipts_missing ctx
  · intro fuel h acc block ord rs hh hr hc h0 hrec
    rw [getBlockReceiptsLoop, hh]
    dsimp only
    rw [hr]
    dsimp only
    rw [hc]
    dsimp only
    rw [if_neg h0, hrec]

/-- C5: the epoch-receipt walk performs at most `REWARD_EPOCH_COUNT`
epoch iterations, and when the current block is genesis (height 0) the
iteration just processed is the last one, so the walk always
terminates. -/
theorem C5_receipt_walk_bounded (ctx : Context)
    (self : SnapshotManifestRequest) :
    getBlockReceiptsIters ctx REWARD_EPOCH_COUNT self.checkpoint ≤
      REWARD_EPOCH_COUNT ∧
    (∀ fuel h block, ctx.block_header_by_hash h = some block →
      block.height = 0 → getBlockReceiptsIters ctx (fuel + 1) h = 1) := by
  constructor
  · exact getBlockReceiptsIters_le ctx _ _
  · intro fuel h block hb h0
    rw [getBlockReceiptsIters, hb]
    dsimp only
    cases hr : ctx.block_hashes_by_epoch block.height with
    | ok ord =>
      cases hc : collectEpochReceipts ctx h ord with
      | some rs => simp [hr, hc, h0]
      | none => simp [hr, hc]
    | error e => simp [hr]

/-- C6: the handler always produces exactly one response echoing the
request's id and checkpoint; manifest load failure or absence is replaced
by the empty default manifest, and failed blame or receipt computations
are replaced by empty sequences. -/
theorem C6_response_always_assembled (ctx : Context)
    (self : SnapshotManifestRequest) :
    (self.handle ctx).request_id = self.request_id ∧
    (self.handle ctx).checkpoint = self.checkpoint ∧
    (∀ m, ctx.load_manifest self.checkpoint self.start_chunk =
        Except.ok (some m) → (self.handle ctx).manifest = m) ∧
    (ctx.load_manifest self.checkpoint self.start_chunk = Except.ok none →
      (self.handle ctx).manifest = RangedManifest.default) ∧
    (∀ e, ctx.load_manifest self.checkpoint self.start_chunk =
        Except.error e → (self.handle ctx).manifest = RangedManifest.default) ∧
    (self.get_blame_states ctx = none →
      (self.handle ctx).state_blame_vec = [] ∧
      (self.handle ctx).receipt_blame_vec = [] ∧
      (self.handle ctx).bloom_blame_vec = []) ∧
    (self.get_block_receipts ctx = none →
      (self.handle ctx).block_receipts = []) := by
  refine ⟨rfl, rfl, ?_, ?_, ?_, ?_, ?_⟩
  · intro m hm
    simp [SnapshotManifestRequest.handle, hm]
  · intro hm
    simp [SnapshotManifestRequest.handle, hm]
  · intro e hm
    simp [SnapshotManifestRequest.handle, hm]
  · exact handle_blame_empty_of_none self ctx
  · intro hn
    rw [handle_block_receipts, hn]
    rfl

/-- C7: when `get_block_receipts` succeeds it returns the concatenation,
across the backward walk that starts at the checkpoint, of each epoch's
receipt list — the newest epoch's receipts first, the accumulated prefix
is always preserved, and within an epoch the receipts follow the order of
the resolved ordered executable block set. -/
theorem C7_receipts_concatenation_order (ctx : Context)
    (self : SnapshotManifestRequest) :
    (self.get_block_receipts ctx =
      getBlockReceiptsLoop ctx REWARD_EPOCH_COUNT self.checkpoint []) ∧
    (∀ fuel h acc block ord rs, ctx.block_header_by_hash h = some block →
      ctx.block_hashes_by_epoch block.height = Except.ok ord →
      collectEpochReceipts ctx h ord = some rs →
      block.height = 0 →
      getBlockReceiptsLoop ctx (fuel + 1) h acc = some (acc ++ rs)) ∧
    (∀ fuel h acc block ord rs, ctx.block_header_by_hash h = some block →
      ctx.block_hashes_by_epoch block.height = Except.ok ord →
      collectEpochReceipts ctx h ord = some rs →
      block.height ≠ 0 →
      getBlockReceiptsLoop ctx (fuel + 1) h acc =
        getBlockReceiptsLoop ctx fuel block.parent_hash (acc ++ rs)) ∧
    (∀ epoch_hash x rest r rs,
      ctx.block_execution_result_by_hash_with_epoch x epoch_hash = some r →
      collectEpochReceipts ctx epoch_hash rest = some rs →
      collectEpochReceipts ctx epoch_hash (x :: rest) = some (r :: rs)) ∧
    (∀ fuel h acc out, getBlockReceiptsLoop ctx fuel h acc = some out →
      ∃ tail, out = acc ++ tail) := by
  refine ⟨rfl, ?_, ?_, ?_, ?_⟩
  · intro fuel h acc block ord rs hh hr hc h0
    rw [getBlockReceiptsLoop, hh]
    dsimp only
    rw [hr]
    dsimp only
    rw [hc]
    dsimp only
    rw [if_pos h0]
  · intro fuel h acc block ord rs hh hr hc h0
    rw [getBlockReceiptsLoop, hh]
    dsimp only
    rw [hr]
    dsimp only
    rw [hc]
    dsimp only
    rw [if_neg h0]
  · intro epoch_hash x rest r rs hx hrest
    simp [collectEpochReceipts, hx, hrest]
  · exact getBlockReceiptsLoop_prefix ctx

/-- C8: `resend` returns `Some` request whose checkpoint, start_chunk and
trusted_blame_block fields are identical to the original's. -/
theorem C8_resend_preserves_fields (self : SnapshotManifestRequest) :
    ∃ req2, self.resend = some req2 ∧
      req2.checkpoint = self.checkpoint ∧
      req2.start_chunk = self.start_chunk ∧
      req2.trusted_blame_block = self.trusted_blame_block :=
  ⟨self, rfl, rfl, rfl, rfl⟩

/-! ## Concrete stores and requests for the witnesses -/

/-- A concrete well-populated store: block `h` has hash `h`, parent
`h - 1`, height `h` and blame count 2. -/
def hdrW (h : Nat) : BlockHeader := ⟨h, h - 1, h, 2⟩

/-- A store in which every lookup succeeds. -/
def ctxW : Context :=
  { block_header_by_hash := fun h => some (hdrW h)
    consensus_graph_execution_info_from_db := fun h => some ⟨h, h, h⟩
    block_hashes_by_epoch := fun height => Except.ok [height]
    block_execution_result_by_hash_with_epoch := fun h _ => some h
    load_manifest := fun _ _ => Except.ok none }

/-- A store in which every lookup fails. -/
def ctxMiss : Context :=
  { block_header_by_hash := fun _ => none
    consensus_graph_execution_info_from_db := fun _ => none
    block_hashes_by_epoch := fun _ => Except.error ()
    block_execution_result_by_hash_with_epoch := fun _ _ => none
    load_manifest := fun _ _ => Except.error () }

/-- Checkpoint at height 100, trusted anchor at height 105. -/
def reqW : SnapshotManifestRequest := ⟨1, 100, none, some 105⟩

/-- Checkpoint at height 105, trusted anchor at height 100 (below it). -/
def reqC3 : SnapshotManifestRequest := ⟨7, 105, none, some 100⟩

/-- A continuation request without a trusted blame block. -/
def reqC10 : SnapshotManifestRequest := ⟨3, 5, some 2, none⟩

/-- The blame vector `reqW` yields against `ctxW`: target length
`max (5 + 12) (2 + 1) = 17`, walking hashes 105 down to 89. -/
def blameListW : List H256 :=
  [105, 104, 103, 102, 101, 100, 99, 98, 97, 96, 95, 94, 93, 92, 91, 90, 89]

theorem C1_blame_vector_length_witness :
    reqW.trusted_blame_block = some 105 ∧
    ctxW.block_header_by_hash 105 = some (hdrW 105) ∧
    ctxW.block_header_by_hash reqW.checkpoint = some (hdrW 100) ∧
    (hdrW 100).height ≤ (hdrW 105).height ∧
    reqW.get_blame_states ctxW = some (blameListW, blameListW, blameListW) ∧
    ((0 < (hdrW 100).height →
      blameListW.length =
        max ((hdrW 105).height - (hdrW 100).height + REWARD_EPOCH_COUNT)
          ((hdrW 105).blame + 1)) ∧
     ((hdrW 100).height = 0 →
      blameListW.length =
        max ((hdrW 105).height - (hdrW 100).height + 1)
          ((hdrW 105).blame + 1))) :=
  ⟨rfl, rfl, rfl, by decide, by decide,
   C1_blame_vector_length ctxW reqW 105 (hdrW 105) (hdrW 100)
     blameListW blameListW blameListW rfl rfl rfl (by decide) (by decide)⟩

theorem C2_blame_walk_all_or_nothing_witness :
    reqW.get_blame_states ctxW = some (blameListW, blameListW, blameListW) ∧
    blameListW.length = blame_target_len (hdrW 105) (hdrW 100) :=
  ⟨by decide,
   ((C2_blame_walk_all_or_nothing ctxW reqW 105 (hdrW 105) (hdrW 100)
       rfl rfl rfl).2.2.2.1 blameListW blameListW blameListW (by decide)).1⟩

theorem C3_low_anchor_aborts_witness :
    (hdrW 100).height < (hdrW 105).height ∧
    (reqC3.get_blame_states ctxW = none ∧
     (reqC3.handle ctxW).state_blame_vec = [] ∧
     (reqC3.handle ctxW).receipt_blame_vec = [] ∧
     (reqC3.handle ctxW).bloom_blame_vec = [] ∧
     (reqC3.handle ctxW).request_id = reqC3.request_id ∧
     (reqC3.handle ctxW).checkpoint = reqC3.checkpoint) :=
  ⟨by decide,
   C3_low_anchor_aborts ctxW reqC3 100 (hdrW 100) (hdrW 105) rfl rfl rfl
     (by decide)⟩

theorem C4_receipts_all_or_nothing_witness :
    ctxMiss.block_header_by_hash 0 = none ∧
    getBlockReceiptsLoop ctxMiss 1 0 [] = none ∧
    (reqW.handle ctxMiss).block_receipts = [] :=
  ⟨rfl,
   (C4_receipts_all_or_nothing ctxMiss reqW).2.1 0 0 [] rfl,
   (C4_receipts_all_or_nothing ctxMiss reqW).1 rfl⟩

theorem C5_receipt_walk_bounded_witness :
    getBlockReceiptsIters ctxW REWARD_EPOCH_COUNT reqW.checkpoint ≤
      REWARD_EPOCH_COUNT ∧
    getBlockReceiptsIters ctxW (3 + 1) 0 = 1 :=
  ⟨(C5_receipt_walk_bounded ctxW reqW).1,
   (C5_receipt_walk_bounded ctxW reqW).2 3 0 (hdrW 0) rfl rfl⟩

theorem C6_response_always_assembled_witness :
    (reqW.handle ctxW).request_id = reqW.request_id ∧
    (reqW.handle ctxW).checkpoint = reqW.checkpoint ∧
    (reqW.handle ctxW).manifest = RangedManifest.default :=
  ⟨(C6_response_always_assembled ctxW reqW).1,
   (C6_response_always_assembled ctxW reqW).2.1,
   (C6_response_always_assembled ctxW reqW).2.2.2.1 rfl⟩

theorem C7_receipts_concatenation_order_witness :
    getBlockReceiptsLoop ctxW 2 5 [] =
      getBlockReceiptsLoop ctxW 1 (hdrW 5).parent_hash ([] ++ [5]) :=
  (C7_receipts_concatenation_order ctxW reqW).2.2.1 1 5 [] (hdrW 5) [5] [5]
    rfl rfl rfl (by decide)

theorem C9_blame_vectors_parallel_witness :
    reqW.get_blame_states ctxW = some (blameListW, blameListW, blameListW) ∧
    (blameListW.length = blameListW.length ∧
     blameListW.length = blameListW.length) :=
  ⟨by decide,
   C9_blame_vectors_parallel ctxW reqW blameListW blameListW blameListW
     (by decide)⟩

theorem C10_absent_anchor_witness :
    reqC10.trusted_blame_block = none ∧
    reqC10.get_blame_states ctxW = none ∧
    (reqC10.handle ctxW).state_blame_vec = [] ∧
    (reqC10.handle ctxW).block_receipts =
      (reqC10.get_block_receipts ctxW).getD [] :=
  ⟨rfl,
   (C10_absent_anchor ctxW reqC10 rfl).1,
   (C10_absent_anchor ctxW reqC10 rfl).2.1,
   (C10_absent_anchor ctxW reqC10 rfl).2.2.2.2.1⟩
